import Mathlib

/-
Verification of the middleware bridging module
(src/server_fn/src/middleware/mod.rs) of the leptos server_fn crate.

The module defines a uniform `Service`/`Layer`/`BoxedService` contract and,
per backend (axum/tower and actix), a two-way bridge between the uniform
contract and the native service/middleware traits.

Shallow embedding conventions:
- A future is modelled by its resolved value: the adapters suspend only to
  await the single inner native future, so `run` is modelled as a total
  function returning the Response the returned future resolves to.
- A native fallible call is modelled as `Req → Except ε Res` (the eventual
  result of the native future), together with a readiness state for the
  poll-style interface.
- Types that belong to this repository but are outside the given sources
  (ServerFnError, the Res response capability, ActixRequest/ActixResponse,
  SendWrapper) are modelled from the spec; their doc comments say so.
-/

namespace ServerFnMiddleware

/-- Model of std::task::Poll. -/
inductive Poll (α : Type) where
  | ready (a : α)
  | pending
deriving DecidableEq, Repr

/-- Modelled from the spec: the shared failure representation is an opaque,
displayable value attachable to a Response (spec §6, Failure representation).
It carries the textual rendering of the failure. -/
structure ServerFnError where
  msg : String
deriving DecidableEq, Repr

/-- Modelled from the spec: `ServerFnError::new` builds the shared failure
value from the textual (Display) rendering of an arbitrary error value. -/
def ServerFnError.new (display : ε → String) (e : ε) : ServerFnError :=
  { msg := display e }

/-- The operations the adapter trait bounds require of a native error type:
`S::Error: Into<ServerFnError> + Debug + Display`.  `display` models the
Display impl, `intoServerFnError` models the declared Into conversion. -/
structure ErrorOps (ε : Type) where
  display : ε → String
  intoServerFnError : ε → ServerFnError

/-- Model of `Result::unwrap_or_else`. -/
def unwrapOrElse (r : Except ε α) (f : ε → α) : α :=
  match r with
  | .ok a => a
  | .error e => f e

/-- The uniform service trait: `run` converts one request into one response.
A trait object is modelled by its one-call behaviour; the Lean function is
total, mirroring that the uniform contract has no error channel. -/
structure Service (Req Res : Type) where
  run : Req → Res

/-- `BoxedService(pub Box<dyn Service<Req, Res> + Send>)`: a type-erased
service owning exactly one inner service. -/
structure BoxedService (Req Res : Type) where
  svc : Service Req Res

/-- `BoxedService::new`: wraps a service into the type-erased handle. -/
def BoxedService.new (s : Service Req Res) : BoxedService Req Res :=
  { svc := s }

/-- Invoking `run` through the handle: the module always forwards as
`self.0.run(req)`. -/
def BoxedService.run (b : BoxedService Req Res) (req : Req) : Res :=
  b.svc.run req

/-- The uniform layer trait: wraps an erased inner service producing a new
erased service. -/
structure Layer (Req Res : Type) where
  layer : BoxedService Req Res → BoxedService Req Res

/-- Applying a sequence of uniform layers, in order, around a terminal
erased service: each layer wraps the result of the previous application. -/
def applyLayers (ls : List (Layer Req Res)) (term : BoxedService Req Res) :
    BoxedService Req Res :=
  List.foldl (fun acc l => l.layer acc) term ls

/-- URI of a request; only the path is relevant to this module. -/
structure Uri where
  path : String
deriving DecidableEq, Repr

namespace Axum

/-- http::Request<Body> as this module observes it: a URI plus opaque
remaining content. -/
structure Request where
  uri : Uri
  body : String
deriving DecidableEq, Repr

/-- http::Response<Body>, opaque to this module except for the error
constructor below. -/
structure Response where
  body : String
deriving DecidableEq, Repr

/-- Modelled from the spec: the Res capability builds a well-formed failure
response from the identifying string and the failure value (spec §6,
Response capability). -/
def Response.error_response (path : String) (err : ServerFnError) : Response :=
  { body := path ++ ": " ++ err.msg }

/-- A native tower service: a readiness state (for poll_ready) and a
fallible call, modelled by the eventual result of its future. -/
structure TowerService (ε : Type) where
  ready : Poll (Except ε Unit)
  call : Request → Except ε Response

/-- The blanket `impl Service<Request<Body>, Response<Body>> for S` where
`S: tower::Service<..>`: captures the request path, invokes the native
call, and converts a native error into an error response tagged with the
captured path. -/
def run (ops : ErrorOps ε) (s : TowerService ε) (req : Request) : Response :=
  let path := req.uri.path
  let inner := s.call req
  unwrapOrElse inner fun e =>
    let err := ServerFnError.new ops.display e
    Response.error_response path err

/-- The uniform service the blanket impl makes out of a native tower
service. -/
def TowerService.uniform (ops : ErrorOps ε) (s : TowerService ε) :
    Service Request Response :=
  { run := run ops s }

/-- `impl tower::Service for BoxedService :: poll_ready`: literally
`Ok(()).into()`. -/
def boxedPollReady (_b : BoxedService Request Response) :
    Poll (Except ServerFnError Unit) :=
  Poll.ready (Except.ok ())

/-- `impl tower::Service for BoxedService :: call`: runs the erased inner
service and wraps the resolved response in `Ok`. -/
def boxedCall (b : BoxedService Request Response) (req : Request) :
    Except ServerFnError Response :=
  Except.ok (b.run req)

/-- A native tower layer as the blanket `impl Layer for L` consumes it:
`L: tower_layer::Layer<BoxedService>` with `L::Service: Service`, so it maps
an erased inner service to some uniform service. -/
structure TowerLayer where
  wrap : BoxedService Request Response → Service Request Response

/-- The blanket `impl Layer for L :: layer`:
`BoxedService(Box::new(self.layer(inner)))` — applies the native wrapping
operation to the erased inner service and re-boxes the result. -/
def TowerLayer.uniform (l : TowerLayer) : Layer Request Response :=
  { layer := fun inner => { svc := l.wrap inner } }

end Axum

namespace Actix

/-- actix_web::HttpRequest as this module observes it. -/
structure HttpRequest where
  uri : Uri
  body : String
deriving DecidableEq, Repr

/-- actix_web::HttpResponse, opaque to this module. -/
structure HttpResponse where
  body : String
deriving DecidableEq, Repr

/-- actix_web::Error, the native error channel of the actix service trait;
opaque to this module. -/
structure ActixError where
  msg : String
deriving DecidableEq, Repr

/-- Modelled from the spec: SendWrapper, a transparent ownership wrapper
around a value; `take` surrenders the wrapped value. -/
structure SendWrapper (α : Type) where
  value : α
deriving DecidableEq, Repr

/-- SendWrapper::take. -/
def SendWrapper.take (w : SendWrapper α) : α :=
  w.value

/-- Modelled from the spec: ActixRequest, the uniform request type of the
actix integration — a wrapper around the native request (the spec treats
request types as opaque values supporting path extraction). -/
structure ActixRequest where
  inner : SendWrapper HttpRequest
deriving DecidableEq, Repr

/-- Modelled from the spec: ActixResponse, the uniform response type of the
actix integration — a wrapper around the native response. -/
structure ActixResponse where
  inner : SendWrapper HttpResponse
deriving DecidableEq, Repr

/-- ActixResponse::take — surrenders the wrapped native response. -/
def ActixResponse.take (r : ActixResponse) : HttpResponse :=
  r.inner.take

/-- ActixResponse::from — wraps a native response. -/
def ActixResponse.from (r : HttpResponse) : ActixResponse :=
  { inner := { value := r } }

/-- Modelled from the spec: the Res capability of the actix integration
builds a well-formed failure response from the identifying string and the
failure value (spec §6, Response capability). -/
def ActixResponse.error_response (path : String) (err : ServerFnError) :
    ActixResponse :=
  ActixResponse.from { body := path ++ ": " ++ err.msg }

/-- A native actix service (`actix_web::dev::Service<HttpRequest,
Response = HttpResponse>`): a readiness state and a fallible call, modelled
by the eventual result of its future. -/
structure ActixService (ε : Type) where
  ready : Poll (Except ε Unit)
  call : HttpRequest → Except ε HttpResponse

/-- The blanket `impl Service<HttpRequest, HttpResponse> for S` where
`S: actix_web::dev::Service<..>`: captures the request path, invokes the
native call, and converts a native error into an error response (built by
the ActixResponse capability, then unwrapped with `take`) tagged with the
captured path. -/
def runHttp (ops : ErrorOps ε) (s : ActixService ε) (req : HttpRequest) :
    HttpResponse :=
  let path := req.uri.path
  let inner := s.call req
  unwrapOrElse inner fun e =>
    let err := ServerFnError.new ops.display e
    (ActixResponse.error_response path err).take

/-- The blanket `impl Service<ActixRequest, ActixResponse> for S`: reads
the path through the wrapper (`req.0 .0.uri().path()`), calls the native
service on the unwrapped native request (`req.0.take().0`), and wraps the
outcome into an ActixResponse. -/
def runActix (ops : ErrorOps ε) (s : ActixService ε) (req : ActixRequest) :
    ActixResponse :=
  let path := req.inner.value.uri.path
  let inner := s.call req.inner.take
  ActixResponse.from <| unwrapOrElse inner fun e =>
    let err := ServerFnError.new ops.display e
    (ActixResponse.error_response path err).take

/-- The uniform service the blanket HttpRequest/HttpResponse impl makes
out of a native actix service. -/
def ActixService.uniformHttp (ops : ErrorOps ε) (s : ActixService ε) :
    Service HttpRequest HttpResponse :=
  { run := runHttp ops s }

/-- `impl actix_web::dev::Service for BoxedService<HttpRequest,
HttpResponse> :: poll_ready`:
`(*self.0 as actix_web::dev::Service<_>).poll_ready(ctx)` — the boxed
value is re-viewed as the native service it erases and its readiness is
forwarded.  Modelled on the wrapper around a native service `s`, whose
readiness the written code reports. -/
def boxedPollReadyHttp (s : ActixService ε) : Poll (Except ε Unit) :=
  s.ready

/-- `impl actix_web::dev::Service for BoxedService<HttpRequest,
HttpResponse> :: call`: runs the erased inner service and wraps the
resolved response in `Ok`. -/
def boxedCallHttp (b : BoxedService HttpRequest HttpResponse)
    (req : HttpRequest) : Except ActixError HttpResponse :=
  Except.ok (b.run req)

/-- `impl actix_web::dev::Service for BoxedService<ActixRequest,
ActixResponse> :: call`: runs the erased inner service on the (wrapped)
native request and returns `Ok` of the response unwrapped with `take`. -/
def boxedCallActix (b : BoxedService ActixRequest ActixResponse)
    (req : ActixRequest) : Except ActixError HttpResponse :=
  Except.ok (b.run req).take

end Actix

/-! Concrete fixtures used by witnesses and counterexamples. -/

/-- Error operations over plain string errors: Display is the identity,
the declared Into conversion tags its input so it is distinguishable. -/
def strOps : ErrorOps String :=
  { display := id, intoServerFnError := fun e => { msg := "INTO:" ++ e } }

/-- A native tower service that is not ready and fails every call. -/
def failTower : Axum.TowerService String :=
  { ready := Poll.pending, call := fun _ => Except.error "boom" }

/-- A native tower service that echoes the request path. -/
def okTower : Axum.TowerService String :=
  { ready := Poll.ready (Except.ok ())
    call := fun rq => Except.ok { body := rq.uri.path } }

/-- A native actix service that is not ready and fails every call. -/
def failActix : Actix.ActixService String :=
  { ready := Poll.pending, call := fun _ => Except.error "not found" }

/-- A native actix service that echoes the request body. -/
def okActix : Actix.ActixService String :=
  { ready := Poll.ready (Except.ok ())
    call := fun rq => Except.ok { body := rq.body } }

/-- A concrete axum request with path /x. -/
def reqX : Axum.Request :=
  { uri := { path := "/x" }, body := "payload" }

/-- A concrete actix native request with path /x. -/
def httpReqX : Actix.HttpRequest :=
  { uri := { path := "/x" }, body := "payload" }

/-- The concrete actix request wrapped into the uniform request type. -/
def actixReqX : Actix.ActixRequest :=
  { inner := { value := httpReqX } }

/-! Claims. -/

/-- C1: for every request and every backend-native service whose call fails
with an error, the adapted uniform run yields exactly one response,
constructed from the request path together with the error converted to the
shared failure representation.  The Lean embedding of run is a total
function into the response type, so exactly one response and no uncaught
fault arise by construction; this theorem identifies that response on the
failure path, for the axum adapter and the actix HttpRequest adapter. -/
theorem claim_C1_failure_is_one_error_response {ε₁ ε₂ : Type}
    (ops₁ : ErrorOps ε₁) (ops₂ : ErrorOps ε₂)
    (s₁ : Axum.TowerService ε₁) (s₂ : Actix.ActixService ε₂)
    (req₁ : Axum.Request) (req₂ : Actix.HttpRequest) (e₁ : ε₁) (e₂ : ε₂)
    (h₁ : s₁.call req₁ = Except.error e₁)
    (h₂ : s₂.call req₂ = Except.error e₂) :
    Axum.run ops₁ s₁ req₁ =
      Axum.Response.error_response req₁.uri.path
        (ServerFnError.new ops₁.display e₁) ∧
    Actix.runHttp ops₂ s₂ req₂ =
      (Actix.ActixResponse.error_response req₂.uri.path
        (ServerFnError.new ops₂.display e₂)).take := by
  constructor
  · simp [Axum.run, unwrapOrElse, h₁]
  · simp [Actix.runHttp, unwrapOrElse, h₂]

/-- C1 witness: both adapters, evaluated on concrete failing services. -/
theorem claim_C1_witness :
    Axum.run strOps failTower reqX =
      Axum.Response.error_response reqX.uri.path
        (ServerFnError.new strOps.display "boom") ∧
    Actix.runHttp strOps failActix httpReqX =
      (Actix.ActixResponse.error_response httpReqX.uri.path
        (ServerFnError.new strOps.display "not found")).take :=
  claim_C1_failure_is_one_error_response strOps strOps failTower failActix
    reqX httpReqX "boom" "not found" rfl rfl

/-- C3 counterexample: the claim states that the native readiness query on
the type-erased wrapper always reports ready on every backend; but the
actix impl forwards the readiness query to the wrapped service, so a
wrapped service whose readiness is pending makes the wrapper report
pending, not ready. -/
theorem claim_C3_counterexample :
    ¬ Actix.boxedPollReadyHttp failActix = Poll.ready (Except.ok ()) := by
  intro h
  exact Poll.noConfusion h

/-- C3 (amended): the axum (tower) wrapper reports unconditional readiness
regardless of the erased service; the actix wrappers instead forward the
readiness query to the wrapped native service and report its readiness. -/
theorem claim_C3_amended_readiness {ε : Type}
    (b : BoxedService Axum.Request Axum.Response)
    (s : Actix.ActixService ε) :
    Axum.boxedPollReady b = Poll.ready (Except.ok ()) ∧
    Actix.boxedPollReadyHttp s = s.ready :=
  ⟨rfl, rfl⟩

/-- C4: for every request and every backend-native service whose call
succeeds, the adapted uniform run yields exactly one response equal to the
native success response, passed through unmodified by the adapter and by
the erasure wrapper (the actix ActixResponse adapter wraps the native
response into the transparent uniform wrapper, whose take returns it
unchanged). -/
theorem claim_C4_success_passthrough {ε₁ ε₂ : Type}
    (ops₁ : ErrorOps ε₁) (ops₂ : ErrorOps ε₂)
    (s₁ : Axum.TowerService ε₁) (s₂ : Actix.ActixService ε₂)
    (req₁ : Axum.Request) (req₂ : Actix.ActixRequest)
    (r₁ : Axum.Response) (r₂ : Actix.HttpResponse)
    (h₁ : s₁.call req₁ = Except.ok r₁)
    (h₂ : s₂.call req₂.inner.take = Except.ok r₂) :
    Axum.run ops₁ s₁ req₁ = r₁ ∧
    Axum.boxedCall (BoxedService.new (Axum.TowerService.uniform ops₁ s₁))
      req₁ = Except.ok r₁ ∧
    Actix.runActix ops₂ s₂ req₂ = Actix.ActixResponse.from r₂ ∧
    (Actix.runActix ops₂ s₂ req₂).take = r₂ := by
  simp only [Actix.SendWrapper.take] at h₂
  refine ⟨?_, ?_, ?_, ?_⟩ <;>
    simp [Axum.run, Axum.boxedCall, BoxedService.new, BoxedService.run,
      Axum.TowerService.uniform, Actix.runActix, Actix.ActixResponse.take,
      Actix.ActixResponse.from, Actix.SendWrapper.take, unwrapOrElse, h₁, h₂]

/-- C4 witness: both adapters, evaluated on concrete succeeding services. -/
theorem claim_C4_witness :
    Axum.run strOps okTower reqX = { body := "/x" } ∧
    Axum.boxedCall (BoxedService.new (Axum.TowerService.uniform strOps
      okTower)) reqX = Except.ok { body := "/x" } ∧
    Actix.runActix strOps okActix actixReqX =
      Actix.ActixResponse.from { body := "payload" } ∧
    (Actix.runActix strOps okActix actixReqX).take = { body := "payload" } :=
  claim_C4_success_passthrough strOps strOps okTower okActix reqX actixReqX
    { body := "/x" } { body := "payload" } rfl rfl

/-- C5: wrapping a service into the type-erased handle and invoking run
through the handle yields the identical response that invoking run on the
unwrapped service directly yields. -/
theorem claim_C5_erasure_transparent {Req Res : Type}
    (s : Service Req Res) (req : Req) :
    (BoxedService.new s).run req = s.run req :=
  rfl

/-- C6: the request path is captured into a fresh owned string before the
request value is consumed by the native call, and when the native call
fails the error response carries failure text built from exactly that
captured path of the original request.  In the pure embedding the capture
order is data flow: the failure text is a function of the original request
path, stated here for the axum adapter and the ActixRequest adapter cited
by the claim. -/
theorem claim_C6_error_tagged_with_path {ε₁ ε₂ : Type}
    (ops₁ : ErrorOps ε₁) (ops₂ : ErrorOps ε₂)
    (s₁ : Axum.TowerService ε₁) (s₂ : Actix.ActixService ε₂)
    (req₁ : Axum.Request) (req₂ : Actix.ActixRequest) (e₁ : ε₁) (e₂ : ε₂)
    (h₁ : s₁.call req₁ = Except.error e₁)
    (h₂ : s₂.call req₂.inner.take = Except.error e₂) :
    (Axum.run ops₁ s₁ req₁).body =
      req₁.uri.path ++ ": " ++ ops₁.display e₁ ∧
    (Actix.runActix ops₂ s₂ req₂).take.body =
      req₂.inner.value.uri.path ++ ": " ++ ops₂.display e₂ := by
  simp only [Actix.SendWrapper.take] at h₂
  constructor
  · simp [Axum.run, unwrapOrElse, h₁, ServerFnError.new,
      Axum.Response.error_response]
  · simp [Actix.runActix, unwrapOrElse, h₂, ServerFnError.new,
      Actix.ActixResponse.error_response, Actix.ActixResponse.from,
      Actix.ActixResponse.take, Actix.SendWrapper.take]

/-- C6 witness: the spec scenario — a native service failing with
"not found" on path /x yields a response whose failure text references
/x. -/
theorem claim_C6_witness :
    (Axum.run strOps failTower reqX).body =
      reqX.uri.path ++ ": " ++ strOps.display "boom" ∧
    (Actix.runActix strOps failActix actixReqX).take.body =
      actixReqX.inner.value.uri.path ++ ": " ++
        strOps.display "not found" :=
  claim_C6_error_tagged_with_path strOps strOps failTower failActix
    reqX actixReqX "boom" "not found" rfl rfl

/-! A trace instrumentation for the layering-order claim: requests carry a
trace of events alongside an opaque payload, responses are the final
trace.  Each instrumented layer appends a pre event before forwarding the
request to the inner erased service and a post event after the inner
response comes back; the terminal service returns the trace it receives. -/

/-- The terminal service of the trace model: returns the incoming trace. -/
def traceTerminal : Service (List String × String) (List String) :=
  { run := fun rq => rq.1 }

/-- A uniform layer that records a pre event on the way in and a post
event on the way out, wrapping the erased inner service as the Layer
contract prescribes. -/
def traceLayer (name : String) : Layer (List String × String) (List String) :=
  { layer := fun inner => BoxedService.new
      { run := fun rq =>
          inner.run (rq.1 ++ ["pre:" ++ name], rq.2) ++ ["post:" ++ name] } }

/-- Unfolding applyLayers over trace layers around an arbitrary erased
service: the pre events accumulate in reverse application order on the way
in, the post events in application order on the way out. -/
theorem traceRunAux (names : List String) :
    ∀ (acc : BoxedService (List String × String) (List String))
      (t : List String) (p : String),
    (applyLayers (names.map traceLayer) acc).run (t, p) =
      acc.run (t ++ (names.map (fun n => "pre:" ++ n)).reverse, p) ++
        names.map (fun n => "post:" ++ n) := by
  induction names with
  | nil =>
      intro acc t p
      simp [applyLayers]
  | cons n ns ih =>
      intro acc t p
      have step : applyLayers ((n :: ns).map traceLayer) acc =
          applyLayers (ns.map traceLayer) ((traceLayer n).layer acc) := rfl
      rw [step, ih]
      simp [traceLayer, BoxedService.new, BoxedService.run,
        List.append_assoc]

/-- C7: for layers L1, ..., Ln applied in that order around a terminal
service via layer, every request observes the pre-processing of the layers
in one fixed order determined solely by the application order (the last
layer applied is outermost and sees the request first) and the
post-processing in the exact reverse order; the order does not depend on
the request. -/
theorem claim_C7_layer_order (names : List String) (t : List String)
    (p : String) :
    (applyLayers (names.map traceLayer)
        (BoxedService.new traceTerminal)).run (t, p) =
      t ++ (names.map (fun n => "pre:" ++ n)).reverse ++
        names.map (fun n => "post:" ++ n) := by
  rw [traceRunAux]
  simp [traceTerminal, BoxedService.new, BoxedService.run]

/-- C8: the uniform-to-native bridge never yields an error value: the
native call on the type-erased wrapper always resolves to Ok carrying the
response produced by the inner uniform run, for the axum tower impl and
the actix HttpRequest impl cited by the claim. -/
theorem claim_C8_bridge_never_errors
    (b₁ : BoxedService Axum.Request Axum.Response)
    (b₂ : BoxedService Actix.HttpRequest Actix.HttpResponse)
    (req₁ : Axum.Request) (req₂ : Actix.HttpRequest) :
    Axum.boxedCall b₁ req₁ = Except.ok (b₁.run req₁) ∧
    Actix.boxedCallHttp b₂ req₂ = Except.ok (b₂.run req₂) :=
  ⟨rfl, rfl⟩

/-- C9 (implicit frame): the adapters pass the request value to the native
call unmodified — the whole behaviour of run is a function of the path of
the original request and the native call applied to exactly that original
request (for the ActixRequest adapter, to the unwrapped native request it
transparently carries); no field is changed and no other state is
consulted before forwarding. -/
theorem claim_C9_request_forwarded_unmodified {ε₁ ε₂ : Type}
    (ops₁ : ErrorOps ε₁) (ops₂ : ErrorOps ε₂)
    (g₁ : Axum.Request → Except ε₁ Axum.Response)
    (g₂ : Actix.HttpRequest → Except ε₂ Actix.HttpResponse)
    (rd₁ : Poll (Except ε₁ Unit)) (rd₂ : Poll (Except ε₂ Unit))
    (req₁ : Axum.Request) (req₂ : Actix.ActixRequest) :
    Axum.run ops₁ { ready := rd₁, call := g₁ } req₁ =
      unwrapOrElse (g₁ req₁) (fun e =>
        Axum.Response.error_response req₁.uri.path
          (ServerFnError.new ops₁.display e)) ∧
    Actix.runActix ops₂ { ready := rd₂, call := g₂ } req₂ =
      Actix.ActixResponse.from (unwrapOrElse (g₂ req₂.inner.take) (fun e =>
        (Actix.ActixResponse.error_response req₂.inner.value.uri.path
          (ServerFnError.new ops₂.display e)).take)) :=
  ⟨rfl, rfl⟩

/-- C10 (implicit): although the adapter bounds require the native error
type to come with a declared Into conversion into the shared failure
representation, the failure value attached to an error response is built
by ServerFnError.new from the textual (Display) rendering of the raw
error; the declared Into conversion is never invoked: run is invariant
under replacing it, and the attached failure value is exactly the Display
rendering. -/
theorem claim_C10_into_conversion_unused {ε : Type} (display : ε → String)
    (into₁ into₂ : ε → ServerFnError)
    (s₁ : Axum.TowerService ε) (s₂ : Actix.ActixService ε)
    (req₁ : Axum.Request) (req₂ : Actix.HttpRequest) (e₁ e₂ : ε) :
    (Axum.run { display := display, intoServerFnError := into₁ } s₁ req₁ =
      Axum.run { display := display, intoServerFnError := into₂ } s₁ req₁) ∧
    (Actix.runHttp { display := display, intoServerFnError := into₁ }
        s₂ req₂ =
      Actix.runHttp { display := display, intoServerFnError := into₂ }
        s₂ req₂) ∧
    (s₁.call req₁ = Except.error e₁ →
      Axum.run { display := display, intoServerFnError := into₁ } s₁ req₁ =
        Axum.Response.error_response req₁.uri.path
          { msg := display e₁ }) ∧
    (s₂.call req₂ = Except.error e₂ →
      Actix.runHttp { display := display, intoServerFnError := into₁ }
          s₂ req₂ =
        (Actix.ActixResponse.error_response req₂.uri.path
          { msg := display e₂ }).take) := by
  refine ⟨rfl, rfl, ?_, ?_⟩
  · intro h₁
    simp [Axum.run, unwrapOrElse, h₁, ServerFnError.new]
  · intro h₂
    simp [Actix.runHttp, unwrapOrElse, h₂, ServerFnError.new]

/-- C10 witness: concrete failing services, with two observably different
Into conversions; run does not distinguish them, and the attached failure
value is the Display rendering of the raw error. -/
theorem claim_C10_witness :
    (Axum.run { display := id, intoServerFnError := fun e =>
        { msg := "INTO:" ++ e } } failTower reqX =
      Axum.run { display := id, intoServerFnError := fun _ =>
        { msg := "other" } } failTower reqX) ∧
    (Actix.runHttp { display := id, intoServerFnError := fun e =>
        { msg := "INTO:" ++ e } } failActix httpReqX =
      Actix.runHttp { display := id, intoServerFnError := fun _ =>
        { msg := "other" } } failActix httpReqX) ∧
    Axum.run { display := id, intoServerFnError := fun e =>
        { msg := "INTO:" ++ e } } failTower reqX =
      Axum.Response.error_response reqX.uri.path { msg := id "boom" } ∧
    Actix.runHttp { display := id, intoServerFnError := fun e =>
        { msg := "INTO:" ++ e } } failActix httpReqX =
      (Actix.ActixResponse.error_response httpReqX.uri.path
        { msg := id "not found" }).take := by
  have h := claim_C10_into_conversion_unused (ε := String) id
    (fun e => { msg := "INTO:" ++ e }) (fun _ => { msg := "other" })
    failTower failActix reqX httpReqX "boom" "not found"
  exact ⟨h.1, h.2.1, h.2.2.1 rfl, h.2.2.2 rfl⟩

end ServerFnMiddleware
